import Mathlib

/-!
Verification of the AI-photo-search ingestion pipeline and search engine.

The Python sources are shallowly embedded:
* `src/tools/format_metadata.py`  → `flatten_metadata`, `sanitize_metadata`
* `src/tools/metadata_filter.py`  → `build_where_clause`
* `src/tools/unified_search.py`   → `normalize_results`, `unified_search`
* `src/tools/image_search.py`     → `search_by_image_run`, `search_by_image_impl`
* `src/worker/embed_images_worker.py` → `processMessage`
* the external Chroma collection  → `chromaAdd`, `chromaQuery`

JSON / Python values are modelled by the inductive `PyVal`; metadata
documents (Python dicts produced by `json.load`) are association lists
`Meta` with the first binding of a key authoritative (Python dicts have
unique keys, so this is faithful).  Python floats are modelled as `ℚ`.
External effects (S3 downloads, SQS delete, CLIP embedding, Chroma
connection) are modelled by explicit success/failure oracles, so a step
"raising" is a `false`/`none` oracle component and the surrounding
control flow is translated directly from the Python `try`/`except`
structure.
-/

namespace PhotoSearch

/-- A JSON-like Python value as produced by `json.load` / held in a dict. -/
inductive PyVal where
  | pnone
  | str (s : String)
  | int (n : Int)
  | float (q : ℚ)
  | bool (b : Bool)
  | list (xs : List PyVal)
  | dict (kvs : List (String × PyVal))
deriving Repr

mutual

/-- Structural equality test on `PyVal` (Python `==` on JSON values). -/
def PyVal.beq : PyVal → PyVal → Bool
  | .pnone, .pnone => true
  | .str a, .str b => a == b
  | .int a, .int b => a == b
  | .float a, .float b => a == b
  | .bool a, .bool b => a == b
  | .list a, .list b => PyVal.beqList a b
  | .dict a, .dict b => PyVal.beqDict a b
  | _, _ => false

/-- Pointwise equality test on lists of `PyVal`. -/
def PyVal.beqList : List PyVal → List PyVal → Bool
  | [], [] => true
  | x :: xs, y :: ys => PyVal.beq x y && PyVal.beqList xs ys
  | _, _ => false

/-- Pointwise equality test on JSON objects. -/
def PyVal.beqDict : List (String × PyVal) → List (String × PyVal) → Bool
  | [], [] => true
  | (k, v) :: xs, (k', v') :: ys => k == k' && PyVal.beq v v' && PyVal.beqDict xs ys
  | _, _ => false

end

instance : BEq PyVal := ⟨PyVal.beq⟩

/-- A metadata document: a Python dict as an association list. -/
abbrev Meta := List (String × PyVal)

/-- Python dict lookup `d.get(k)`: first binding of the key, if any. -/
def mget (m : Meta) (k : String) : Option PyVal :=
  match m with
  | [] => Option.none
  | (k', v) :: rest => if k' = k then some v else mget rest k

/-- Python truthiness (`if value:`) for the values `PyVal` models. -/
def truthy : PyVal → Bool
  | .pnone => false
  | .str s => s ≠ ""
  | .int n => n ≠ 0
  | .float q => q ≠ 0
  | .bool b => b
  | .list xs => !xs.isEmpty
  | .dict kvs => !kvs.isEmpty

mutual

/-- Model of `json.dumps` on JSON-representable values (total on `PyVal`). -/
def dumps : PyVal → String
  | .pnone => "null"
  | .str s => "\"" ++ s ++ "\""
  | .int n => toString n
  | .float q => toString q
  | .bool b => if b then "true" else "false"
  | .list xs => "[" ++ dumpsList xs ++ "]"
  | .dict kvs => "\x7b" ++ dumpsDict kvs ++ "\x7d"

/-- Serialization of a JSON array body. -/
def dumpsList : List PyVal → String
  | [] => ""
  | [x] => dumps x
  | x :: xs => dumps x ++ ", " ++ dumpsList xs

/-- Serialization of a JSON object body. -/
def dumpsDict : List (String × PyVal) → String
  | [] => ""
  | [(k, v)] => "\"" ++ k ++ "\": " ++ dumps v
  | (k, v) :: kvs => "\"" ++ k ++ "\": " ++ dumps v ++ ", " ++ dumpsDict kvs

end

/-- Embedding of `flatten_metadata` (src/tools/format_metadata.py, lines 3-17):
pop the `exif` entry (default `{}`); if it is truthy store `json.dumps` of it
under `exif`, otherwise store the string `"unknown"`; all other entries are
kept unchanged (Python 3.7 dicts keep their order, the reassigned `exif` key
lands at the end). -/
def flatten_metadata (metadata : Meta) : Meta :=
  let exif_data := (mget metadata "exif").getD (.dict [])
  let rest := metadata.filter (fun kv => kv.1 != "exif")
  if truthy exif_data then
    rest ++ [("exif", .str (dumps exif_data))]
  else
    rest ++ [("exif", .str "unknown")]

/-- Python `value is None`. -/
def isNone : PyVal → Bool
  | .pnone => true
  | _ => false

/-- Embedding of `sanitize_metadata` (src/tools/format_metadata.py, lines
19-35): every entry whose value is `None` becomes `-1` for the keys `year`,
`month`, `hour` and the string `"unknown"` otherwise; all other entries are
kept unchanged. Only entries present in the input are visited. -/
def sanitize_metadata (metadata : Meta) : Meta :=
  metadata.map fun kv =>
    (kv.1,
      if isNone kv.2 then
        if kv.1 = "year" ∨ kv.1 = "month" ∨ kv.1 = "hour" then
          PyVal.int (-1)
        else
          PyVal.str "unknown"
      else
        kv.2)

/-- A store-primitive scalar in the sense of the spec: string, int or float. -/
def isScalar : PyVal → Bool
  | .str _ => true
  | .int _ => true
  | .float _ => true
  | _ => false

/-! ## Chroma collection (external vector index engine) -/

/-- A record persisted by the Chroma collection: id, embedding, metadata. -/
abbrev ChromaRec := String × List ℚ × Meta

/-- The external Chroma `collection.add` (chromadb `PersistentClient`,
called at src/worker/embed_images_worker.py lines 118-122): it inserts new
records, but an id that is already present in the collection is skipped with
a warning and the stored record is NOT replaced — replacement is the
separate `collection.upsert` API, which the worker does not call. -/
def chromaAdd (recs : List ChromaRec) (id : String) (emb : List ℚ) (meta : Meta) : List ChromaRec :=
  if recs.any (fun r => r.1 == id) then recs else recs ++ [(id, emb, meta)]

/-- Number of records in the collection carrying a given id. -/
def countId (recs : List ChromaRec) (id : String) : Nat :=
  (recs.filter (fun r => r.1 == id)).length

/-! ## Ingestion worker (src/worker/embed_images_worker.py) -/

/-- The four fields a job payload must carry (line 77 of the worker). -/
def requiredFields : List String := ["bucket", "image_key", "photo_id", "metadata_key"]

/-- Does one character list start with another (pointwise `==`)? -/
def startsWithChars : List Char → List Char → Bool
  | [], _ => true
  | _ :: _, [] => false
  | a :: as, b :: bs => a == b && startsWithChars as bs

/-- Does a character list contain another as a contiguous run? -/
def charsContain (needle : List Char) : List Char → Bool
  | [] => needle.isEmpty
  | hay@(_ :: rest) => startsWithChars needle hay || charsContain needle rest

/-- Python `needle in hay` on strings: substring containment. -/
def pyStrIn (needle hay : String) : Bool :=
  charsContain needle.data hay.data

/-- An SQS message as the worker sees it: `body` is the result of
`json.loads(msg["Body"])` — any JSON value, not necessarily an object —
and `Option.none` when that raises `JSONDecodeError`. -/
structure SqsMessage where
  body : Option PyVal

/-- Outcomes of the external steps of one job, injected as oracles:
each `false`/`none` component models the corresponding call raising. -/
structure WorkerEnv where
  downloadImageOk : Bool
  downloadMetaOk : Bool
  metaDoc : Option Meta
  embedResult : Option (List ℚ)
  storeOk : Bool

/-- Observable outcome of processing one message: whether
`sqs.delete_message` ran, the record passed to `collection.add` when the
store completed, which steps were attempted, and which of the two staged
temp files (`{photo_id}.jpg`, `{photo_id}.json`) still exist afterwards. -/
structure JobOutcome where
  deleted : Bool
  stored : Option (PyVal × List ℚ × Meta)
  fetchedImage : Bool
  fetchedMeta : Bool
  embedAttempted : Bool
  storeAttempted : Bool
  imageFileLeft : Bool
  metaFileLeft : Bool

/-- Embedding of the per-message body of the worker loop
(src/worker/embed_images_worker.py lines 65-141).  Malformed JSON deletes
the message at once (lines 68-74).  The validation (lines 77-86) runs
OUTSIDE the inner `try`, with Python semantics of `field in body` and
`body["bucket"]` depending on what `json.loads` produced: for an object,
key membership then field access; for a list, element membership — when
all four names are elements, `body["bucket"]` raises `TypeError` (string
index into a list); for a string, substring membership — when all four
names are substrings, indexing raises `TypeError`; for a number, boolean
or null, `in` itself raises `TypeError`.  A raise outside the inner `try`
is caught by the outer handler (line 143) and the message is NOT deleted.
Failed membership checks delete the message (line 80).  The inner `try`
(lines 92-135) downloads the image, downloads and parses the metadata
JSON, flattens and sanitizes it, embeds, stores via `collection.add`, and
only then deletes the message; any raise skips the delete.  The `finally`
block (lines 137-141) removes `local_path` when it exists and never
touches `local_metadata_path`. -/
def processMessage (msg : SqsMessage) (env : WorkerEnv) : JobOutcome :=
  match msg.body with
  | Option.none =>
      { deleted := true, stored := Option.none, fetchedImage := false, fetchedMeta := false,
        embedAttempted := false, storeAttempted := false, imageFileLeft := false, metaFileLeft := false }
  | some (PyVal.list xs) =>
      if requiredFields.all (fun f => xs.contains (PyVal.str f)) then
        -- body["bucket"] raises TypeError outside the inner try: no delete
        { deleted := false, stored := Option.none, fetchedImage := false, fetchedMeta := false,
          embedAttempted := false, storeAttempted := false, imageFileLeft := false, metaFileLeft := false }
      else
        { deleted := true, stored := Option.none, fetchedImage := false, fetchedMeta := false,
          embedAttempted := false, storeAttempted := false, imageFileLeft := false, metaFileLeft := false }
  | some (PyVal.str s) =>
      if requiredFields.all (fun f => pyStrIn f s) then
        -- body["bucket"] raises TypeError outside the inner try: no delete
        { deleted := false, stored := Option.none, fetchedImage := false, fetchedMeta := false,
          embedAttempted := false, storeAttempted := false, imageFileLeft := false, metaFileLeft := false }
      else
        { deleted := true, stored := Option.none, fetchedImage := false, fetchedMeta := false,
          embedAttempted := false, storeAttempted := false, imageFileLeft := false, metaFileLeft := false }
  | some (PyVal.int _) | some (PyVal.float _) | some (PyVal.bool _) | some PyVal.pnone =>
      -- `field in body` raises TypeError outside the inner try: no delete
      { deleted := false, stored := Option.none, fetchedImage := false, fetchedMeta := false,
        embedAttempted := false, storeAttempted := false, imageFileLeft := false, metaFileLeft := false }
  | some (PyVal.dict body) =>
      if requiredFields.all (fun f => (mget body f).isSome) then
        if env.downloadImageOk then
          if env.downloadMetaOk then
            match env.metaDoc with
            | Option.none =>
                { deleted := false, stored := Option.none, fetchedImage := true, fetchedMeta := true,
                  embedAttempted := false, storeAttempted := false, imageFileLeft := false, metaFileLeft := true }
            | some doc =>
                match env.embedResult with
                | Option.none =>
                    { deleted := false, stored := Option.none, fetchedImage := true, fetchedMeta := true,
                      embedAttempted := true, storeAttempted := false, imageFileLeft := false, metaFileLeft := true }
                | some emb =>
                    if env.storeOk then
                      { deleted := true,
                        stored := some ((mget body "photo_id").getD .pnone, emb,
                          sanitize_metadata (flatten_metadata doc)),
                        fetchedImage := true, fetchedMeta := true,
                        embedAttempted := true, storeAttempted := true,
                        imageFileLeft := false, metaFileLeft := true }
                    else
                      { deleted := false, stored := Option.none, fetchedImage := true, fetchedMeta := true,
                        embedAttempted := true, storeAttempted := true, imageFileLeft := false, metaFileLeft := true }
          else
            { deleted := false, stored := Option.none, fetchedImage := true, fetchedMeta := true,
              embedAttempted := false, storeAttempted := false, imageFileLeft := false, metaFileLeft := false }
        else
          { deleted := false, stored := Option.none, fetchedImage := true, fetchedMeta := false,
            embedAttempted := false, storeAttempted := false, imageFileLeft := false, metaFileLeft := false }
      else
        { deleted := true, stored := Option.none, fetchedImage := false, fetchedMeta := false,
          embedAttempted := false, storeAttempted := false, imageFileLeft := false, metaFileLeft := false }

/-! ## Search engine (src/tools/metadata_filter.py, unified_search.py, image_search.py) -/

/-- Embedding of `build_where_clause` (src/tools/metadata_filter.py):
`year`/`month` are included when not `None`; `time_of_day`,
`camera_make`, `camera_model` are included when truthy, i.e. a non-empty
string (Python `if time_of_day:`), with `time_of_day` stored under the
metadata key `period_of_day`. -/
def build_where_clause (year month : Option Int)
    (time_of_day camera_make camera_model : Option String) : List (String × PyVal) :=
  (match year with | some y => [("year", PyVal.int y)] | Option.none => [])
  ++ (match month with | some mo => [("month", PyVal.int mo)] | Option.none => [])
  ++ (match time_of_day with
      | some t => if t != "" then [("period_of_day", PyVal.str t)] else []
      | Option.none => [])
  ++ (match camera_make with
      | some s => if s != "" then [("camera_make", PyVal.str s)] else []
      | Option.none => [])
  ++ (match camera_model with
      | some s => if s != "" then [("camera_model", PyVal.str s)] else []
      | Option.none => [])

/-- Does a stored record's metadata satisfy every equality of a where clause? -/
def matchesWhere (meta : Meta) (w : List (String × PyVal)) : Bool :=
  w.all (fun kv => match mget meta kv.1 with
    | some v => PyVal.beq v kv.2
    | Option.none => false)

/-- The raw query result the Chroma client hands back, after the worker's
`[0]`-indexing of the nested lists: parallel lists of ids, metadatas and
distances. -/
structure RawResults where
  ids : List String
  metadatas : List Meta
  distances : List ℚ

/-- One stored record as ranked for a given query embedding: its id, its
metadata, and its cosine distance to the query. -/
structure CollRecord where
  id : String
  meta : Meta
  dist : ℚ

/-- The external Chroma `collection.query(query_embeddings, n_results, where)`:
of the records matching the where clause, the `n_results` nearest (the
collection list is taken already ranked by ascending distance for the
query at hand). -/
def chromaQuery (coll : List CollRecord) (w : List (String × PyVal)) (n : Nat) : RawResults :=
  let hits := (coll.filter (fun r => matchesWhere r.meta w)).take n
  { ids := hits.map (fun r => r.id),
    metadatas := hits.map (fun r => r.meta),
    distances := hits.map (fun r => r.dist) }

/-- A normalized search result as built by `unified_search`
(src/tools/unified_search.py lines 40-52): every field is `meta.get(...)`
on the returned metadata — including `photo_id`, which is
`meta.get("id")`, not the id Chroma returned beside the metadata. -/
structure SearchResult where
  photo_id : Option PyVal
  photo_key : Option PyVal
  thumbnail_key : Option PyVal
  bucket : Option PyVal
  taken_at : Option PyVal
  period_of_day : Option PyVal
  year : Option PyVal
  month : Option PyVal
  month_name : Option PyVal
  hour : Option PyVal
  camera_make : Option PyVal
  camera_model : Option PyVal
  distance : Option ℚ
  similarity_score : Option ℚ

/-- Python `round(q, 3)` on the exact rational model of the float:
round half to even (banker's rounding) at the third decimal. -/
def round3 (q : ℚ) : ℚ :=
  let x := q * 1000
  let f : ℤ := Rat.floor x
  let r := x - (f : ℚ)
  let n : ℤ :=
    if r < 1/2 then f
    else if 1/2 < r then f + 1
    else if f % 2 = 0 then f else f + 1
  (n : ℚ) / 1000

/-- Embedding of the result-normalization loop of `unified_search`
(src/tools/unified_search.py lines 34-52): one result per entry of `ids`,
with `metadatas[i] if i < len(metadatas) else \x7b\x7d`, `distances[i] if
i < len(distances) else None`, every display field from `meta.get`, and
`similarity_score = round(1 - distance, 3) if distance is not None else None`. -/
def normalize_results (raw : RawResults) : List SearchResult :=
  (List.range raw.ids.length).map fun i =>
    let meta := raw.metadatas.getD i []
    let distance := raw.distances.get? i
    { photo_id := mget meta "id",
      photo_key := mget meta "photo_key",
      thumbnail_key := mget meta "thumbnail_key",
      bucket := mget meta "bucket",
      taken_at := mget meta "taken_at",
      period_of_day := mget meta "period_of_day",
      year := mget meta "year",
      month := mget meta "month",
      month_name := mget meta "month_name",
      hour := mget meta "hour",
      camera_make := mget meta "camera_make",
      camera_model := mget meta "camera_model",
      distance := distance,
      similarity_score := distance.map (fun d => round3 (1 - d)) }

/-- Embedding of `unified_search` (src/tools/unified_search.py): query the
collection, then normalize the raw results. -/
def unified_search (coll : List CollRecord) (w : List (String × PyVal)) (k : Nat) : List SearchResult :=
  normalize_results (chromaQuery coll w k)

/-- Validation of `month` (src/tools/image_search.py line 55):
`month is not None and not (1 <= month <= 12)`. -/
def badMonth : Option Int → Bool
  | some mo => if 1 ≤ mo ∧ mo ≤ 12 then false else true
  | Option.none => false

/-- Validation of `time_of_day` (line 59): `time_of_day and time_of_day
not in ['morning', 'afternoon', 'evening', 'night']` — an empty string is
falsy, so it is NOT checked against the enumeration. -/
def badTimeOfDay : Option String → Bool
  | some t => t != "" && !(["morning", "afternoon", "evening", "night"].contains t)
  | Option.none => false

/-- Python `str.strip()`: drop leading and trailing whitespace. -/
def pyStrip (s : String) : String :=
  ⟨((s.data.dropWhile Char.isWhitespace).reverse.dropWhile Char.isWhitespace).reverse⟩

/-- Validation of `camera_make`/`camera_model` (lines 63-73): given but
empty after stripping. -/
def badCamera : Option String → Bool
  | some s => pyStrip s == ""
  | Option.none => false

/-- External outcomes for one search call: the ranked collection, whether
the Chroma connection is up, whether `embed_image` succeeds, and whether
`Path(image_path).exists()`. -/
structure SearchEnv where
  coll : List CollRecord
  connOk : Bool
  embedOk : Bool
  fileExists : Bool

/-- Instrumented run of a search: whether control reached the Chroma
query, and the body's outcome (`Except.error` = an exception was raised
inside the `try` block). -/
structure SearchTrace where
  queried : Bool
  outcome : Except String (List SearchResult)

/-- Embedding of the `try` body of `search_by_image_impl`
(src/tools/image_search.py lines 36-94), translated branch by branch:
empty/whitespace path → `[]`; missing file → `[]`; bad `month`,
`time_of_day`, `camera_make`, `camera_model` → `[]`; then `k` is clamped
by `min(max(k, 1), 20)`, the cameras are trimmed, the image is embedded
(raising when the oracle fails), the where clause is built and the
collection queried (raising when the connection oracle fails). -/
def search_by_image_run (env : SearchEnv) (imagePath : String)
    (year month : Option Int) (time_of_day camera_make camera_model : Option String)
    (k : Int) : SearchTrace :=
  if imagePath == "" || pyStrip imagePath == "" then { queried := false, outcome := Except.ok [] }
  else if !env.fileExists then { queried := false, outcome := Except.ok [] }
  else if badMonth month then { queried := false, outcome := Except.ok [] }
  else if badTimeOfDay time_of_day then { queried := false, outcome := Except.ok [] }
  else if badCamera camera_make then { queried := false, outcome := Except.ok [] }
  else if badCamera camera_model then { queried := false, outcome := Except.ok [] }
  else if !env.embedOk then { queried := false, outcome := Except.error "embed_image raised" }
  else if !env.connOk then { queried := true, outcome := Except.error "chromadb connection error" }
  else
    { queried := true,
      outcome := Except.ok (unified_search env.coll
        (build_where_clause year month time_of_day
          (Option.map pyStrip camera_make) (Option.map pyStrip camera_model))
        (min (max k 1) 20).toNat) }

/-- Embedding of `search_by_image_impl` (src/tools/image_search.py lines
18-103): the `try` body wrapped in the handlers of lines 96-101, which
catch `FileNotFoundError` and every other `Exception` alike and return
`[]`. -/
def search_by_image_impl (env : SearchEnv) (imagePath : String)
    (year month : Option Int) (time_of_day camera_make camera_model : Option String)
    (k : Int) : List SearchResult :=
  match (search_by_image_run env imagePath year month time_of_day camera_make camera_model k).outcome with
  | Except.ok r => r
  | Except.error _ => []

/-! ## Concrete inputs used by witnesses and counterexamples -/

/-- A well-formed job payload carrying all four required fields. -/
def msgOkBody : Meta :=
  [("bucket", .str "photo-bucket"), ("image_key", .str "images/p1.jpg"),
   ("photo_id", .str "p1"), ("metadata_key", .str "metadata/p1.json")]

/-- A message whose body parses to the object `msgOkBody`. -/
def msgOk : SqsMessage := ⟨some (.dict msgOkBody)⟩

/-- A message whose body is not valid JSON. -/
def msgBadJson : SqsMessage := ⟨Option.none⟩

/-- A message whose body is an object missing `photo_id` and
`metadata_key`. -/
def msgMissing : SqsMessage := ⟨some (.dict [("bucket", .str "b"), ("image_key", .str "k")])⟩

/-- A message whose body is the valid JSON document `42` — not an object,
so it carries none of the four required fields. -/
def msgIntBody : SqsMessage := ⟨some (.int 42)⟩

/-- A message whose body is a valid JSON list holding the four required
field names as strings — a list carries no fields at all, yet Python's
`field in body` succeeds on it. -/
def msgListBody : SqsMessage :=
  ⟨some (.list [.str "bucket", .str "image_key", .str "photo_id", .str "metadata_key"])⟩

/-- Oracles under which every external step succeeds. -/
def envOk : WorkerEnv := ⟨true, true, some [("year", .pnone)], some [1], true⟩

/-- Oracles under which the store (`collection.add`) raises. -/
def envStoreFail : WorkerEnv := ⟨true, true, some [("year", .pnone)], some [1], false⟩

/-- A metadata document with a nested non-`exif` value. -/
def nestedMeta : Meta := [("gps", PyVal.dict [("lat", PyVal.int 1)])]

/-- A flat metadata document (scalar or null values only). -/
def flatMeta : Meta := [("year", PyVal.pnone), ("camera_make", PyVal.str "HUAWEI")]

/-- A raw query result: one record with id `p1`, empty metadata, distance 0.1. -/
def rawEx : RawResults := ⟨["p1"], [[]], [1/10]⟩

/-- A search environment with an empty collection and every resource up. -/
def envUp : SearchEnv := ⟨[], true, true, true⟩

/-- A search environment whose Chroma connection is down. -/
def envConnFail : SearchEnv := ⟨[], false, true, true⟩

/-! ## Worker theorems -/

/-- C1: Acknowledge-after-store — for every valid job, the worker deletes
the message iff the `collection.add` store of that job's embedding record
completed successfully, and a raise at Fetch (either download or the
metadata parse), Embed, or Store leaves the message undeleted and hence
re-deliverable. -/
theorem ack_after_store (b : Meta) (msg : SqsMessage) (env : WorkerEnv)
    (hbody : msg.body = some (PyVal.dict b))
    (hvalid : requiredFields.all (fun f => (mget b f).isSome) = true) :
    ((processMessage msg env).deleted = true ↔ (processMessage msg env).stored.isSome = true) ∧
    ((env.downloadImageOk = false ∨ env.downloadMetaOk = false ∨ env.metaDoc = Option.none ∨
      env.embedResult = Option.none ∨ env.storeOk = false) →
      (processMessage msg env).deleted = false) := by
  obtain ⟨body⟩ := msg
  obtain ⟨di, dm, md, er, st⟩ := env
  cases hbody
  cases di <;> cases dm <;> cases md <;> cases er <;> cases st <;>
    simp [processMessage, hvalid]

/-- Witness for `ack_after_store` at a concrete valid job and all-success
oracles. -/
theorem ack_after_store_witness :
    ((processMessage msgOk envOk).deleted = true ↔ (processMessage msgOk envOk).stored.isSome = true) ∧
    ((envOk.downloadImageOk = false ∨ envOk.downloadMetaOk = false ∨ envOk.metaDoc = Option.none ∨
      envOk.embedResult = Option.none ∨ envOk.storeOk = false) →
      (processMessage msgOk envOk).deleted = false) :=
  ack_after_store msgOkBody msgOk envOk rfl rfl

/-- C6 counterexample: two messages whose bodies are valid JSON but carry
none of the four required fields — the document `42` and a list of the
four field names — are NOT deleted: validation raises `TypeError` outside
the inner `try` (at `"bucket" in body` for `42`; at `body["bucket"]` for
the list, whose membership check passes), the outer handler catches it,
and the message redelivers forever, refuting the claim that every such
message is deleted immediately. -/
theorem nondict_body_never_deleted :
    (processMessage msgIntBody envOk).deleted = false ∧
    (processMessage msgListBody envOk).deleted = false :=
  ⟨rfl, rfl⟩

/-- C6 (amended): a message is deleted immediately — with nothing fetched,
embedded or stored — when its body is not valid JSON, or parses to a JSON
object missing a required field, or parses to a JSON list or string in
which Python's `in` fails to find all four field names.  But a body that
parses to a number, boolean or null (where `field in body` raises
`TypeError`), or to a list or string containing all four names (where
`body["bucket"]` raises `TypeError`), crashes validation outside the
inner `try`: the message is NOT deleted and stays re-deliverable, though
still nothing is fetched, embedded or stored. -/
theorem rejected_jobs_acked (msg : SqsMessage) (env : WorkerEnv) :
    ((msg.body = Option.none ∨
      (∃ b, msg.body = some (PyVal.dict b) ∧
        requiredFields.all (fun f => (mget b f).isSome) = false) ∨
      (∃ xs, msg.body = some (PyVal.list xs) ∧
        requiredFields.all (fun f => xs.contains (PyVal.str f)) = false) ∨
      (∃ s, msg.body = some (PyVal.str s) ∧
        requiredFields.all (fun f => pyStrIn f s) = false)) →
      (processMessage msg env).deleted = true ∧
      (processMessage msg env).fetchedImage = false ∧
      (processMessage msg env).fetchedMeta = false ∧
      (processMessage msg env).embedAttempted = false ∧
      (processMessage msg env).storeAttempted = false ∧
      (processMessage msg env).stored = Option.none) ∧
    (((∃ n, msg.body = some (PyVal.int n)) ∨
      (∃ q, msg.body = some (PyVal.float q)) ∨
      (∃ bo, msg.body = some (PyVal.bool bo)) ∨
      msg.body = some PyVal.pnone ∨
      (∃ xs, msg.body = some (PyVal.list xs) ∧
        requiredFields.all (fun f => xs.contains (PyVal.str f)) = true) ∨
      (∃ s, msg.body = some (PyVal.str s) ∧
        requiredFields.all (fun f => pyStrIn f s) = true)) →
      (processMessage msg env).deleted = false ∧
      (processMessage msg env).fetchedImage = false ∧
      (processMessage msg env).fetchedMeta = false ∧
      (processMessage msg env).embedAttempted = false ∧
      (processMessage msg env).storeAttempted = false ∧
      (processMessage msg env).stored = Option.none) := by
  constructor
  · intro h
    rcases h with h | ⟨b, hb, hv⟩ | ⟨xs, hb, hv⟩ | ⟨s, hb, hv⟩
    · simp [processMessage, h]
    · simp [processMessage, hb, hv]
    · simp [processMessage, hb, hv]
    · simp [processMessage, hb, hv]
  · intro h
    rcases h with ⟨n, hb⟩ | ⟨q, hb⟩ | ⟨bo, hb⟩ | hb | ⟨xs, hb, hv⟩ | ⟨s, hb, hv⟩
    · simp [processMessage, hb]
    · simp [processMessage, hb]
    · simp [processMessage, hb]
    · simp [processMessage, hb]
    · simp [processMessage, hb, hv]
    · simp [processMessage, hb, hv]

/-- Witness for `rejected_jobs_acked`: a message with invalid JSON is
deleted with nothing attempted; a message whose body is the JSON document
`42` is not deleted, with nothing attempted either. -/
theorem rejected_jobs_acked_witness :
    ((processMessage msgBadJson envOk).deleted = true ∧
     (processMessage msgBadJson envOk).fetchedImage = false ∧
     (processMessage msgBadJson envOk).fetchedMeta = false ∧
     (processMessage msgBadJson envOk).embedAttempted = false ∧
     (processMessage msgBadJson envOk).storeAttempted = false ∧
     (processMessage msgBadJson envOk).stored = Option.none) ∧
    ((processMessage msgIntBody envOk).deleted = false ∧
     (processMessage msgIntBody envOk).fetchedImage = false ∧
     (processMessage msgIntBody envOk).fetchedMeta = false ∧
     (processMessage msgIntBody envOk).embedAttempted = false ∧
     (processMessage msgIntBody envOk).storeAttempted = false ∧
     (processMessage msgIntBody envOk).stored = Option.none) :=
  ⟨(rejected_jobs_acked msgBadJson envOk).1 (Or.inl rfl),
   (rejected_jobs_acked msgIntBody envOk).2 (Or.inl ⟨42, rfl⟩)⟩

/-- C10: evaluation at the failing input — a fully successful job leaves
the downloaded metadata JSON temp file behind (`local_metadata_path` is
never unlinked), while the image temp file is removed and the message is
deleted. -/
theorem temp_metadata_file_leak :
    (processMessage msgOk envOk).metaFileLeft = true ∧
    (processMessage msgOk envOk).imageFileLeft = false ∧
    (processMessage msgOk envOk).deleted = true :=
  ⟨rfl, rfl, rfl⟩

/-- C2: evaluation at the failing input — `collection.add` on an id that
is already stored keeps the first record's embedding and metadata and
ignores the new values, so re-ingestion does not overwrite. -/
theorem reingest_keeps_first_record :
    chromaAdd (chromaAdd [] "p1" [1] [("year", PyVal.int 2023)]) "p1" [0] [("year", PyVal.int 2024)]
      = [("p1", [1], [("year", PyVal.int 2023)])] ∧
    countId (chromaAdd (chromaAdd [] "p1" [1] [("year", PyVal.int 2023)]) "p1" [0] [("year", PyVal.int 2024)]) "p1" = 1 :=
  ⟨rfl, rfl⟩

/-! ## Metadata-normalizer theorems -/

/-- The sentinel `sanitize_metadata` substitutes for a null value under a
given key. -/
def nullSentinel (k : String) : PyVal :=
  if k = "year" ∨ k = "month" ∨ k = "hour" then PyVal.int (-1) else PyVal.str "unknown"

/-- Lookup through `sanitize_metadata`: present keys keep their value
unless it was null, in which case they get the key's sentinel; lookup
misses stay misses. -/
theorem mget_sanitize (m : Meta) (k : String) :
    mget (sanitize_metadata m) k =
      (mget m k).map (fun v => if isNone v then nullSentinel k else v) := by
  induction m with
  | nil => rfl
  | cons kv rest ih =>
    obtain ⟨k', v⟩ := kv
    by_cases hk' : k' = k
    · subst hk'
      simp [sanitize_metadata, mget, nullSentinel]
    · simpa [sanitize_metadata, mget, hk'] using ih

/-- Lookup of a non-`exif` key is unchanged by dropping the `exif` entry. -/
theorem mget_filter_exif (m : Meta) (k : String) (hk : k ≠ "exif") :
    mget (m.filter (fun kv => kv.1 != "exif")) k = mget m k := by
  induction m with
  | nil => rfl
  | cons kv rest ih =>
    obtain ⟨k', v⟩ := kv
    by_cases he : k' = "exif"
    · have hk' : k' ≠ k := by
        intro h
        exact hk (h ▸ he)
      simp [he, mget, hk', ih, Ne.symm hk]
    · by_cases hk' : k' = k
      · subst hk'
        simp [mget, he]
      · simp [mget, he, hk', ih]

/-- Lookup of a non-`exif` key skips an `exif` entry appended at the end. -/
theorem mget_append_exif (l : Meta) (v : PyVal) (k : String) (hk : k ≠ "exif") :
    mget (l ++ [("exif", v)]) k = mget l k := by
  induction l with
  | nil => simp [mget, Ne.symm hk]
  | cons kv rest ih =>
    by_cases hk' : kv.1 = k
    · simp [mget, hk']
    · simp [mget, hk', ih]

/-- Lookup of a non-`exif` key is unchanged by `flatten_metadata`. -/
theorem mget_flatten (m : Meta) (k : String) (hk : k ≠ "exif") :
    mget (flatten_metadata m) k = mget m k := by
  simp only [flatten_metadata]
  split <;> rw [mget_append_exif _ _ _ hk, mget_filter_exif _ _ hk]

/-- Membership in `flatten_metadata`: an entry either comes unchanged from
the input under a non-`exif` key, or is the final string-valued `exif`
entry. -/
theorem mem_flatten (m : Meta) (kv : String × PyVal) (h : kv ∈ flatten_metadata m) :
    (kv ∈ m ∧ kv.1 ≠ "exif") ∨ ∃ s, kv = ("exif", PyVal.str s) := by
  simp only [flatten_metadata] at h
  split at h <;>
  · rcases List.mem_append.1 h with h' | h'
    · rcases List.mem_filter.1 h' with ⟨hm, hne⟩
      exact Or.inl ⟨hm, by simpa using hne⟩
    · exact Or.inr ⟨_, by simpa using h'⟩

/-- C5 counterexample: normalizing the empty document (in which `year` is
absent) does not yield `-1` for `year` — the field is simply absent from
the output, refuting the claim's treatment of absent fields. -/
theorem absent_year_not_substituted :
    mget (sanitize_metadata (flatten_metadata [])) "year" = Option.none ∧
    (Option.none : Option PyVal) ≠ some (PyVal.int (-1)) :=
  ⟨rfl, fun h => Option.noConfusion h⟩

/-- C5 (amended): sentinel substitution applies to fields that are present
with a null value — `year`/`month`/`hour` become `-1` and every other
non-`exif` field becomes `"unknown"` — while fields absent from the input
stay absent from the output (no sentinel is added for them). -/
theorem null_sentinel_substitution (m : Meta) (k : String) (hk : k ≠ "exif") :
    (mget m k = some PyVal.pnone →
      mget (sanitize_metadata (flatten_metadata m)) k =
        some (if k = "year" ∨ k = "month" ∨ k = "hour" then PyVal.int (-1)
              else PyVal.str "unknown")) ∧
    (mget m k = Option.none →
      mget (sanitize_metadata (flatten_metadata m)) k = Option.none) := by
  constructor
  · intro h
    rw [mget_sanitize, mget_flatten _ _ hk, h]
    simp [isNone, nullSentinel]
  · intro h
    rw [mget_sanitize, mget_flatten _ _ hk, h]
    rfl

/-- Witness for `null_sentinel_substitution`: in `flatMeta` the key `year`
is present and null and becomes `-1`; the key `month` is absent and stays
absent. -/
theorem null_sentinel_substitution_witness :
    mget (sanitize_metadata (flatten_metadata flatMeta)) "year" = some (PyVal.int (-1)) ∧
    mget (sanitize_metadata (flatten_metadata flatMeta)) "month" = Option.none := by
  constructor
  · have h := (null_sentinel_substitution flatMeta "year" (by decide)).1 rfl
    simpa using h
  · exact (null_sentinel_substitution flatMeta "month" (by decide)).2 rfl

/-- C4 counterexample: a document with a nested value under a key other
than `exif` normalizes to an output that still contains that nested
value, refuting the scalar-only postcondition. -/
theorem normalize_not_scalar_only :
    (sanitize_metadata (flatten_metadata nestedMeta)).all (fun kv => isScalar kv.2) = false ∧
    mget (sanitize_metadata (flatten_metadata nestedMeta)) "gps"
      = some (PyVal.dict [("lat", PyVal.int 1)]) :=
  ⟨rfl, rfl⟩

/-- C4 (amended): normalization is a total function (never raises on any
JSON document) and never leaves a null in its output; its output is
scalar-only provided every non-`exif` input value is itself a scalar or
null — nested values under keys other than `exif` pass through unchanged. -/
theorem normalize_scalar_when_flat (m : Meta)
    (h : ∀ kv ∈ m, kv.1 ≠ "exif" → isScalar kv.2 = true ∨ isNone kv.2 = true) :
    ∀ kv ∈ sanitize_metadata (flatten_metadata m),
      isScalar kv.2 = true ∧ isNone kv.2 = false := by
  intro kv hkv
  simp only [sanitize_metadata, List.mem_map] at hkv
  obtain ⟨kv', hkv', rfl⟩ := hkv
  rcases mem_flatten m kv' hkv' with ⟨hm, hne⟩ | ⟨s, rfl⟩
  · rcases h kv' hm hne with hs | hn
    · have hnn : isNone kv'.2 = false := by
        cases hv : kv'.2 <;> simp_all [isScalar, isNone]
      simp [hnn, hs]
    · have hv : kv'.2 = PyVal.pnone := by
        cases hv2 : kv'.2 <;> simp_all [isNone]
      rw [hv]
      by_cases hkey : kv'.1 = "year" ∨ kv'.1 = "month" ∨ kv'.1 = "hour" <;>
        simp [hkey, isScalar, isNone]
  · simp [isScalar, isNone]

/-- Witness for `normalize_scalar_when_flat`: the first entry of the
normalization of the flat document `flatMeta` — the pair
`("year", -1)` — is a non-null scalar. -/
theorem normalize_scalar_when_flat_witness :
    isScalar (PyVal.int (-1)) = true ∧ isNone (PyVal.int (-1)) = false :=
  normalize_scalar_when_flat flatMeta
    (by
      intro kv hkv
      simp only [flatMeta, List.mem_cons, List.mem_singleton] at hkv
      rcases hkv with rfl | rfl | h
      · intro hne
        exact Or.inr rfl
      · intro hne
        exact Or.inl rfl
      · exact absurd h (List.not_mem_nil kv))
    ("year", PyVal.int (-1)) (List.Mem.head _)

/-! ## Search-engine theorems -/

/-- Result normalization emits one result per returned id. -/
theorem normalize_results_length (raw : RawResults) :
    (normalize_results raw).length = raw.ids.length := by
  simp [normalize_results]

/-- C3 counterexample: a returned triple with id `"p1"` and a metadata
document without an `"id"` field is emitted with `photo_id = None` — the
result does not carry the record's returned photo id, which
`unified_search` reads from `meta.get("id")` and not from the id list. -/
theorem searchresult_id_not_from_ids :
    rawEx.ids = ["p1"] ∧
    (normalize_results rawEx).map (fun r => r.photo_id) = [Option.none] ∧
    (Option.none : Option PyVal) ≠ some (PyVal.str "p1") :=
  ⟨rfl, rfl, fun h => Option.noConfusion h⟩

/-- C3 (amended): for every returned triple, the emitted SearchResult
carries the metadata's `"id"` field as `photo_id` (null when absent), the
display metadata subset, the distance, and
`similarity_score = round(1 - distance, 3)` when the distance is present
and null otherwise; `distance = 0.0` yields `1.0` and `distance = 0.642`
yields `0.358`. -/
theorem result_normalization (raw : RawResults) (i : Nat) (h : i < raw.ids.length) :
    (normalize_results raw).length = raw.ids.length ∧
    (∀ r, (normalize_results raw).get? i = some r →
      r.photo_id = mget (raw.metadatas.getD i []) "id" ∧
      r.taken_at = mget (raw.metadatas.getD i []) "taken_at" ∧
      r.period_of_day = mget (raw.metadatas.getD i []) "period_of_day" ∧
      r.camera_make = mget (raw.metadatas.getD i []) "camera_make" ∧
      r.camera_model = mget (raw.metadatas.getD i []) "camera_model" ∧
      r.bucket = mget (raw.metadatas.getD i []) "bucket" ∧
      r.photo_key = mget (raw.metadatas.getD i []) "photo_key" ∧
      r.thumbnail_key = mget (raw.metadatas.getD i []) "thumbnail_key" ∧
      r.distance = raw.distances.get? i ∧
      r.similarity_score = (raw.distances.get? i).map (fun d => round3 (1 - d))) ∧
    ((normalize_results raw).get? i).isSome = true ∧
    round3 (1 - 0) = 1 ∧ round3 (1 - 642/1000) = 358/1000 := by
  have hget : (normalize_results raw).get? i
      = some ((fun j =>
          let meta := raw.metadatas.getD j []
          let distance := raw.distances.get? j
          ({ photo_id := mget meta "id",
             photo_key := mget meta "photo_key",
             thumbnail_key := mget meta "thumbnail_key",
             bucket := mget meta "bucket",
             taken_at := mget meta "taken_at",
             period_of_day := mget meta "period_of_day",
             year := mget meta "year",
             month := mget meta "month",
             month_name := mget meta "month_name",
             hour := mget meta "hour",
             camera_make := mget meta "camera_make",
             camera_model := mget meta "camera_model",
             distance := distance,
             similarity_score := distance.map (fun d => round3 (1 - d)) } : SearchResult)) i) := by
    simp [normalize_results, List.getElem?_map, List.getElem?_range, h]
  refine ⟨normalize_results_length raw, ?_, ?_, ?_, ?_⟩
  · intro r hr
    rw [hget] at hr
    cases hr
    exact ⟨rfl, rfl, rfl, rfl, rfl, rfl, rfl, rfl, rfl, rfl⟩
  · rw [hget]
    rfl
  · norm_num [round3, Rat.floor_def']
  · norm_num [round3, Rat.floor_def']

/-- Witness for `result_normalization` at the concrete raw result `rawEx`. -/
theorem result_normalization_witness :
    (normalize_results rawEx).length = rawEx.ids.length ∧
    (∀ r, (normalize_results rawEx).get? 0 = some r →
      r.photo_id = mget (rawEx.metadatas.getD 0 []) "id" ∧
      r.taken_at = mget (rawEx.metadatas.getD 0 []) "taken_at" ∧
      r.period_of_day = mget (rawEx.metadatas.getD 0 []) "period_of_day" ∧
      r.camera_make = mget (rawEx.metadatas.getD 0 []) "camera_make" ∧
      r.camera_model = mget (rawEx.metadatas.getD 0 []) "camera_model" ∧
      r.bucket = mget (rawEx.metadatas.getD 0 []) "bucket" ∧
      r.photo_key = mget (rawEx.metadatas.getD 0 []) "photo_key" ∧
      r.thumbnail_key = mget (rawEx.metadatas.getD 0 []) "thumbnail_key" ∧
      r.distance = rawEx.distances.get? 0 ∧
      r.similarity_score = (rawEx.distances.get? 0).map (fun d => round3 (1 - d))) ∧
    ((normalize_results rawEx).get? 0).isSome = true ∧
    round3 (1 - 0) = 1 ∧ round3 (1 - 642/1000) = 358/1000 :=
  result_normalization rawEx 0 (by decide)

/-- Exhaustive case analysis of a search run: fail-closed validation,
embed failure, connection failure, or a successful query with the clamped
`k`. -/
theorem run_cases (env : SearchEnv) (imagePath : String)
    (year month : Option Int) (time_of_day camera_make camera_model : Option String) (k : Int) :
    search_by_image_run env imagePath year month time_of_day camera_make camera_model k
        = { queried := false, outcome := Except.ok [] } ∨
    search_by_image_run env imagePath year month time_of_day camera_make camera_model k
        = { queried := false, outcome := Except.error "embed_image raised" } ∨
    (env.connOk = false ∧
      search_by_image_run env imagePath year month time_of_day camera_make camera_model k
        = { queried := true, outcome := Except.error "chromadb connection error" }) ∨
    (env.connOk = true ∧
      search_by_image_run env imagePath year month time_of_day camera_make camera_model k
        = { queried := true, outcome := Except.ok (unified_search env.coll
            (build_where_clause year month time_of_day
              (Option.map pyStrip camera_make) (Option.map pyStrip camera_model))
            (min (max k 1) 20).toNat) }) := by
  unfold search_by_image_run
  split
  · exact Or.inl rfl
  split
  · exact Or.inl rfl
  split
  · exact Or.inl rfl
  split
  · exact Or.inl rfl
  split
  · exact Or.inl rfl
  split
  · exact Or.inl rfl
  split
  · exact Or.inr (Or.inl rfl)
  split
  · rename_i hconn
    exact Or.inr (Or.inr (Or.inl ⟨by simpa using hconn, rfl⟩))
  · rename_i hconn
    exact Or.inr (Or.inr (Or.inr ⟨by simpa using hconn, rfl⟩))

/-- Every failed filter validation yields the fail-closed trace: empty
result, no exception, index not queried. -/
theorem run_invalid_filters (env : SearchEnv) (imagePath : String)
    (year month : Option Int) (time_of_day camera_make camera_model : Option String) (k : Int)
    (hb : badMonth month = true ∨ badTimeOfDay time_of_day = true ∨
          badCamera camera_make = true ∨ badCamera camera_model = true) :
    search_by_image_run env imagePath year month time_of_day camera_make camera_model k =
      { queried := false, outcome := Except.ok [] } := by
  unfold search_by_image_run
  split
  · rfl
  split
  · rfl
  split
  · rfl
  split
  · rfl
  split
  · rfl
  split
  · rfl
  rcases hb with h | h | h | h <;> simp_all

/-- C7 (amended): when `month` is given and out of `[1, 12]`, or
`time_of_day` is given, non-empty and not one of the four enumerated
values, or `camera_make`/`camera_model` is given and empty after
stripping, the search returns `[]`, raises nothing, and never queries the
index.  (An empty-string `time_of_day` is falsy in Python and bypasses the
enumeration check, so it is excluded here.) -/
theorem fail_closed_validation (env : SearchEnv) (imagePath : String)
    (year month : Option Int) (time_of_day camera_make camera_model : Option String) (k : Int)
    (h : (∃ mo, month = some mo ∧ ¬(1 ≤ mo ∧ mo ≤ 12)) ∨
         (∃ t, time_of_day = some t ∧ t ≠ "" ∧
            t ∉ (["morning", "afternoon", "evening", "night"] : List String)) ∨
         (∃ s, camera_make = some s ∧ pyStrip s = "") ∨
         (∃ s, camera_model = some s ∧ pyStrip s = "")) :
    search_by_image_impl env imagePath year month time_of_day camera_make camera_model k = [] ∧
    (search_by_image_run env imagePath year month time_of_day camera_make camera_model k).queried = false := by
  have hb : badMonth month = true ∨ badTimeOfDay time_of_day = true ∨
      badCamera camera_make = true ∨ badCamera camera_model = true := by
    rcases h with ⟨mo, rfl, hr⟩ | ⟨t, rfl, hne, hmem⟩ | ⟨s, rfl, htr⟩ | ⟨s, rfl, htr⟩
    · exact Or.inl (by simp [badMonth, hr])
    · exact Or.inr (Or.inl (by simp [badTimeOfDay, hne, hmem]))
    · exact Or.inr (Or.inr (Or.inl (by simp [badCamera, htr])))
    · exact Or.inr (Or.inr (Or.inr (by simp [badCamera, htr])))
  have hrun := run_invalid_filters env imagePath year month time_of_day camera_make camera_model k hb
  refine ⟨?_, ?_⟩
  · unfold search_by_image_impl
    rw [hrun]
  · rw [hrun]

/-- Witness for `fail_closed_validation` at `month = 13`. -/
theorem fail_closed_validation_witness :
    search_by_image_impl envUp "q.jpg" Option.none (some 13) Option.none Option.none Option.none 5 = [] ∧
    (search_by_image_run envUp "q.jpg" Option.none (some 13) Option.none Option.none Option.none 5).queried = false :=
  fail_closed_validation envUp "q.jpg" Option.none (some 13) Option.none Option.none Option.none 5
    (Or.inl ⟨13, rfl, by omega⟩)

/-- C7 counterexample: with `time_of_day` given as the empty string — a
value that is not one of the four enumerated ones — the validation is
bypassed (Python truthiness) and the index IS queried. -/
theorem empty_time_of_day_queries_index :
    ("" ∉ (["morning", "afternoon", "evening", "night"] : List String)) ∧
    (search_by_image_run envUp "q.jpg" Option.none Option.none (some "") Option.none Option.none 5).queried = true := by
  refine ⟨by decide, ?_⟩
  rfl

/-- C8 counterexample: with every input valid and the index connection
down, the query raises inside the `try` body, but `search_by_image_impl`
catches it and returns the empty list instead of surfacing the error. -/
theorem index_failure_not_propagated :
    (search_by_image_run envConnFail "q.jpg" Option.none Option.none Option.none Option.none Option.none 5).outcome
      = Except.error "chromadb connection error" ∧
    search_by_image_impl envConnFail "q.jpg" Option.none Option.none Option.none Option.none Option.none 5 = [] :=
  ⟨rfl, rfl⟩

/-- C8 (amended): an index connection failure is caught by the catch-all
handler and converted into the empty result list, exactly like a
validation failure — `search_by_image_impl` never propagates an exception
to its caller. -/
theorem index_failure_returns_empty (env : SearchEnv) (imagePath : String)
    (year month : Option Int) (time_of_day camera_make camera_model : Option String) (k : Int)
    (hconn : env.connOk = false) :
    search_by_image_impl env imagePath year month time_of_day camera_make camera_model k = [] := by
  rcases run_cases env imagePath year month time_of_day camera_make camera_model k with
    h | h | ⟨_, h⟩ | ⟨hc, h⟩
  · unfold search_by_image_impl
    rw [h]
  · unfold search_by_image_impl
    rw [h]
  · unfold search_by_image_impl
    rw [h]
  · rw [hconn] at hc
    exact absurd hc (by simp)

/-- Witness for `index_failure_returns_empty` at a concrete failing
connection. -/
theorem index_failure_returns_empty_witness :
    search_by_image_impl envConnFail "q.jpg" Option.none Option.none Option.none Option.none Option.none 5 = [] :=
  index_failure_returns_empty envConnFail "q.jpg" Option.none Option.none Option.none Option.none Option.none 5 rfl

/-- The number of results of a unified search never exceeds the requested
count. -/
theorem unified_search_length_le (coll : List CollRecord) (w : List (String × PyVal)) (n : Nat) :
    (unified_search coll w n).length ≤ n := by
  rw [unified_search, normalize_results_length]
  simp only [chromaQuery, List.length_map, List.length_take]
  omega

/-- C9: for every requested `k` — including `0` and `999` — the effective
result count is clamped to `[1, 20]`, the search returns at most 20
results, and no out-of-range `k` can make it raise (the embedding is a
total function). -/
theorem k_clamped (env : SearchEnv) (imagePath : String)
    (year month : Option Int) (time_of_day camera_make camera_model : Option String) (k : Int) :
    (search_by_image_impl env imagePath year month time_of_day camera_make camera_model k).length ≤ 20 ∧
    1 ≤ min (max k 1) 20 ∧ min (max k 1) 20 ≤ 20 := by
  refine ⟨?_, by omega, by omega⟩
  rcases run_cases env imagePath year month time_of_day camera_make camera_model k with
    h | h | ⟨_, h⟩ | ⟨_, h⟩ <;>
    unfold search_by_image_impl <;> rw [h]
  · simp
  · simp
  · simp
  · calc (unified_search env.coll _ (min (max k 1) 20).toNat).length
        ≤ (min (max k 1) 20).toNat := unified_search_length_le _ _ _
      _ ≤ 20 := by omega

end PhotoSearch
